import Mathlib

/-!
Verification of the `Cosy` value type of `src/assets/cosy_lib/cosy.cpp`.

Modelling conventions (shallow embedding of the C++ source):

* The class `Cosy` holds a tagged `union CosyValue { int; double[2]; }`
  together with a `std::string`, a `std::vector<Cosy>` and a `CosyType` tag.
  We model the class as a record-like inductive with those four fields, and
  the union as an inductive with one case per active member, plus
  `complexHalf` (only `complexValue[0]` written so far, `[1]` indeterminate)
  and `indeterminate` (never initialised, as after the string/vector
  constructors, which do not touch the union).
* C++ `double` components are modelled as exact rationals `ℚ`; the
  int-to-double conversions exercised here are exact, and no verified
  property depends on rounding of `double` addition.
* C++ `int` is modelled as `Int`; the source specifies no overflow policy
  and no verified property exercises overflow.
* Reading an inactive union member is undefined behaviour in C++; the read
  helpers return a fixed placeholder (`0`) there.  Under the constructor
  invariant (tag matches active member) those cases are never reached.
* `Cosy::into_complex` mutates its receiver and returns `*this` by value.
  We return `Except (String × Cosy) Cosy`: on success the payload is both
  the returned value and the receiver's new state; on a throw the payload
  carries the exception message and the receiver's state at the moment of
  the throw (exceptions propagate, the receiver keeps whatever mutations
  already happened).
* `Cosy::operator+` is `const` and mutates nothing; it can throw, and its
  `COMPLEX + NUMBER` branch calls itself recursively.  We model it with a
  fuel parameter: each nested invocation of `operator+` consumes one unit,
  so `addFuel fuel a b = none` for every `fuel` states that the C++ call
  never runs to completion for any recursion depth.
-/

inductive CosyType where
  | NUMBER
  | STRING
  | COMPLEX
  | VECTOR
deriving DecidableEq, Repr

inductive CosyValue where
  | intValue (n : Int)
  | complexValue (re im : ℚ)
  | complexHalf (re : ℚ)
  | indeterminate
deriving DecidableEq, Repr

/-- The `Cosy` class: union payload, string payload, vector payload, tag. -/
inductive Cosy where
  | mk (value : CosyValue) (stringValue : String) (vectorValue : List Cosy)
      (type : CosyType)

def Cosy.value : Cosy → CosyValue
  | .mk v _ _ _ => v

def Cosy.stringValue : Cosy → String
  | .mk _ s _ _ => s

def Cosy.vectorValue : Cosy → List Cosy
  | .mk _ _ vec _ => vec

def Cosy.type : Cosy → CosyType
  | .mk _ _ _ t => t

/-- Read `value.intValue` (placeholder `0` when the member is inactive). -/
def CosyValue.readInt : CosyValue → Int
  | .intValue n => n
  | _ => 0

/-- Read `value.complexValue[0]` (placeholder `0` when inactive). -/
def CosyValue.readRe : CosyValue → ℚ
  | .complexValue re _ => re
  | .complexHalf re => re
  | _ => 0

/-- Read `value.complexValue[1]` (placeholder `0` when inactive). -/
def CosyValue.readIm : CosyValue → ℚ
  | .complexValue _ im => im
  | _ => 0

/-- Write `value.complexValue[0] = r`: keeps `[1]` if the complex member was
active, otherwise `[1]` is still indeterminate. -/
def CosyValue.writeRe : CosyValue → ℚ → CosyValue
  | .complexValue _ im, r => .complexValue r im
  | _, r => .complexHalf r

/-- Write `value.complexValue[1] = i`.  In the source every write to `[1]`
directly follows a write to `[0]`, so the first two cases are the reachable
ones; the fallback keeps a placeholder `0` real part. -/
def CosyValue.writeIm : CosyValue → ℚ → CosyValue
  | .complexValue re _, i => .complexValue re i
  | .complexHalf re, i => .complexValue re i
  | _, i => .complexValue 0 i

/-- `Cosy::Cosy()` — default to the integer `0`. -/
def cosyDefault : Cosy := .mk (.intValue 0) "" [] .NUMBER

/-- `Cosy::Cosy(int)`. -/
def cosyNumber (n : Int) : Cosy := .mk (.intValue n) "" [] .NUMBER

/-- `Cosy::Cosy(const std::string&)` — the union is left uninitialised. -/
def cosyString (s : String) : Cosy := .mk .indeterminate s [] .STRING

/-- `Cosy::Cosy(double, double)`. -/
def cosyComplex (re im : ℚ) : Cosy :=
  .mk ((CosyValue.indeterminate.writeRe re).writeIm im) "" [] .COMPLEX

/-- `Cosy::Cosy(std::vector<Cosy>)` — the union is left uninitialised. -/
def cosySeq (xs : List Cosy) : Cosy := .mk .indeterminate "" xs .VECTOR

/-- `Cosy::into_complex()`.  Success yields the mutated receiver (which is
also the returned `*this`); an error carries the exception message together
with the receiver's state when the exception escapes. -/
def intoComplex : Cosy → Except (String × Cosy) Cosy
  | .mk v s vec t =>
    match t with
    | .NUMBER =>
      .ok (.mk ((v.writeRe (v.readInt : ℚ)).writeIm 0) s vec .COMPLEX)
    | .STRING =>
      .error ("Cannot convert string to complex number!", .mk v s vec .STRING)
    | .COMPLEX => .ok (.mk v s vec .COMPLEX)
    | .VECTOR =>
      match vec with
      | [] =>
        .error ("Cannot convert vector to complex, must have at least two elements!",
          .mk v s [] .VECTOR)
      | [e0] =>
        .error ("Cannot convert vector to complex, must have at least two elements!",
          .mk v s [e0] .VECTOR)
      | e0 :: e1 :: rest =>
        match intoComplex e0 with
        | .error (msg, e0Bad) =>
          .error (msg, .mk v s (e0Bad :: e1 :: rest) .COMPLEX)
        | .ok r0 =>
          match intoComplex e1 with
          | .error (msg, e1Bad) =>
            .error (msg, .mk (v.writeRe r0.value.readRe) s (r0 :: e1Bad :: rest) .COMPLEX)
          | .ok r1 =>
            .ok (.mk ((v.writeRe r0.value.readRe).writeIm r1.value.readRe) s
              (r0 :: r1 :: rest) .COMPLEX)

/-- The string conversion done for each operand inside the second branch of
`Cosy::operator+` (lines 87-101): a string is taken as is, a number goes
through `std::to_string`, anything else throws. -/
def toStrOperand (c : Cosy) : Except String String :=
  if c.type = .STRING then .ok c.stringValue
  else if c.type = .NUMBER then .ok (toString c.value.readInt)
  else .error "Cannot convert complex/vector to string for concatenation!"

/-- `Cosy::operator+`, with explicit recursion fuel.  `none` means the fuel
ran out, i.e. the call did not complete within that recursion depth;
`some (.error msg)` models a thrown exception; `some (.ok r)` a normal
return.  The branch order mirrors the if/else-if chain of lines 81-118, and
the final `cosyDefault` is the default-constructed `result` that every
unmatched pairing falls through to. -/
def addFuel : Nat → Cosy → Cosy → Option (Except String Cosy)
  | 0, _, _ => none
  | fuel + 1, a, b =>
    if a.type = .STRING ∧ b.type = .STRING then
      some (.ok (.mk (.intValue 0) (a.stringValue ++ b.stringValue) [] .STRING))
    else if a.type = .STRING ∨ b.type = .STRING then
      match toStrOperand a with
      | .error msg => some (.error msg)
      | .ok leftStr =>
        match toStrOperand b with
        | .error msg => some (.error msg)
        | .ok rightStr =>
          some (.ok (.mk (.intValue 0) (leftStr ++ rightStr) [] .STRING))
    else if a.type = .NUMBER ∧ b.type = .COMPLEX then
      some (.ok (.mk (((CosyValue.intValue 0).writeRe
            ((a.value.readInt : ℚ) + b.value.readRe)).writeIm b.value.readIm)
          "" [] .COMPLEX))
    else if a.type = .COMPLEX ∧ b.type = .NUMBER then
      addFuel fuel a (.mk (.intValue b.value.readInt) "" [] .NUMBER)
    else if a.type = .NUMBER ∧ b.type = .NUMBER then
      some (.ok (.mk (.intValue (a.value.readInt + b.value.readInt)) "" [] .NUMBER))
    else if a.type = .COMPLEX ∧ b.type = .COMPLEX then
      some (.ok (.mk (((CosyValue.intValue 0).writeRe
            (a.value.readRe + b.value.readRe)).writeIm
            (a.value.readIm + b.value.readIm))
          "" [] .COMPLEX))
    else
      some (.ok cosyDefault)

/-- `std::ostream << double` with default formatting.  Exact for integral
values (`2.0` prints as `2`), which are the only doubles any verified
property renders; non-integral values fall back to the rational's own text
form, which approximates but does not reproduce the precision-6 formatting
of the standard library. -/
def showDouble (q : ℚ) : String :=
  if q.den = 1 then toString q.num else toString q

mutual

/-- `operator<<(std::ostream&, const Cosy&)` (lines 122-149), as the string
the value writes to the stream. -/
def render : Cosy → String
  | .mk v s vec t =>
    match t with
    | .NUMBER => toString v.readInt
    | .STRING => s
    | .COMPLEX =>
      if v.readIm ≥ 0 then
        "(" ++ showDouble v.readRe ++ " + " ++ showDouble v.readIm ++ "i)"
      else
        "(" ++ showDouble v.readRe ++ " - " ++ showDouble (-v.readIm) ++ "i)"
    | .VECTOR => "\x7b " ++ renderElems vec ++ " \x7d"

/-- The element loop of the `VECTOR` case: every element is rendered, and
`", "` is appended after each element except the last. -/
def renderElems : List Cosy → String
  | [] => ""
  | [x] => render x
  | x :: y :: rest => render x ++ ", " ++ renderElems (y :: rest)

end

/-- Whether an `Except` computation succeeded. -/
def exceptOk {ε α : Type} : Except ε α → Bool
  | .ok _ => true
  | .error _ => false

/-- Characterisation of the receivers on which `into_complex` returns
normally: numbers and complexes always, strings never, and a vector exactly
when it has at least two elements whose first two both coerce recursively. -/
def coercible : Cosy → Bool
  | .mk _ _ _ .NUMBER => true
  | .mk _ _ _ .STRING => false
  | .mk _ _ _ .COMPLEX => true
  | .mk _ _ vec .VECTOR =>
    match vec with
    | e0 :: e1 :: _ => coercible e0 && coercible e1
    | _ => false

/-- Interleave a separator between rendered items: the spec's reading of
"separated by a comma and space, with no trailing separator". -/
def sepBy (sep : String) : List String → String
  | [] => ""
  | [x] => x
  | x :: y :: rest => x ++ sep ++ sepBy sep (y :: rest)

theorem writeRe_writeIm (v : CosyValue) (x y : ℚ) :
    (v.writeRe x).writeIm y = .complexValue x y := by
  cases v <;> rfl

theorem addFuel_complex_number_eq_none (f : Nat) :
    ∀ a b : Cosy, a.type = .COMPLEX → b.type = .NUMBER → addFuel f a b = none := by
  induction f with
  | zero => intro a b _ _; rfl
  | succ n ih =>
    intro a b ha hb
    simp only [addFuel, ha, hb]
    simp only [reduceCtorEq, and_self, if_false, false_and, and_false, or_self,
      and_true, if_true, false_or]
    exact ih a _ ha rfl

/-- Claim C1: the claim states that `combine(Complex(1,2), Number(3))`
returns `Complex(4,2)`; on the code the `COMPLEX + NUMBER` branch
re-enters itself with the operands unchanged, so the call never returns,
at any recursion depth. -/
theorem combine_complex_one_two_number_three_never_returns (f : Nat) :
    addFuel f (cosyComplex 1 2) (cosyNumber 3) = none :=
  addFuel_complex_number_eq_none f _ _ rfl rfl

/-- Claim C2: the claim states that every invocation of `operator+`
terminates; in fact whenever the left operand is `COMPLEX` and the right is
`NUMBER` the call never completes, for any recursion depth. -/
theorem combine_complex_number_diverges (a b : Cosy)
    (ha : a.type = .COMPLEX) (hb : b.type = .NUMBER) (f : Nat) :
    addFuel f a b = none :=
  addFuel_complex_number_eq_none f a b ha hb

theorem combine_complex_number_diverges_witness :
    addFuel 9 (cosyComplex 0 0) (cosyNumber 5) = none :=
  combine_complex_number_diverges (cosyComplex 0 0) (cosyNumber 5) rfl rfl 9

/-- Claim C3: every pairing not covered by the listed rules — a vector
combined with a number, complex or vector, or a number/complex combined
with a vector — raises no error and falls through to the
default-constructed result, the number `0`. -/
theorem combine_unhandled_pairs_default (f : Nat) (a b : Cosy)
    (h : (a.type = .VECTOR ∧ (b.type = .NUMBER ∨ b.type = .COMPLEX ∨ b.type = .VECTOR)) ∨
      ((a.type = .NUMBER ∨ a.type = .COMPLEX) ∧ b.type = .VECTOR)) :
    addFuel (f + 1) a b = some (.ok cosyDefault) := by
  rcases h with ⟨ha, hb | hb | hb⟩ | ⟨ha | ha, hb⟩ <;> simp [addFuel, ha, hb]

theorem combine_unhandled_pairs_default_witness :
    addFuel 1 (cosySeq []) (cosyNumber 7) = some (.ok cosyDefault) :=
  combine_unhandled_pairs_default 0 (cosySeq []) (cosyNumber 7)
    (Or.inl ⟨rfl, Or.inl rfl⟩)

theorem intoComplex_ok_eq_coercible : ∀ c : Cosy, exceptOk (intoComplex c) = coercible c
  | .mk _ _ _ .NUMBER => rfl
  | .mk _ _ _ .STRING => rfl
  | .mk _ _ _ .COMPLEX => rfl
  | .mk _ _ [] .VECTOR => rfl
  | .mk _ _ [_] .VECTOR => rfl
  | .mk v s (e0 :: e1 :: rest) .VECTOR => by
    have h0 := intoComplex_ok_eq_coercible e0
    have h1 := intoComplex_ok_eq_coercible e1
    simp only [intoComplex, coercible]
    cases he0 : intoComplex e0 with
    | error err =>
      rw [he0] at h0
      obtain ⟨msg, e0Bad⟩ := err
      simp only [exceptOk] at h0 ⊢
      rw [← h0]
      simp
    | ok r0 =>
      rw [he0] at h0
      simp only [exceptOk] at h0
      cases he1 : intoComplex e1 with
      | error err =>
        rw [he1] at h1
        obtain ⟨msg, e1Bad⟩ := err
        simp only [exceptOk] at h1 ⊢
        rw [← h0, ← h1]
        simp
      | ok r1 =>
        rw [he1] at h1
        simp only [exceptOk] at h1 ⊢
        rw [← h0, ← h1]
        simp

/-- Claim C4, counterexample: `Sequence([String "a", Number 0])` has two
elements and is neither a string nor a short sequence, yet
`into_complex` on it fails (the recursive coercion of its first element
throws), refuting "for every other receiver it succeeds". -/
theorem coerce_two_elem_seq_can_fail :
    (cosySeq [cosyString "a", cosyNumber 0]).type = .VECTOR ∧
    (cosySeq [cosyString "a", cosyNumber 0]).vectorValue.length = 2 ∧
    exceptOk (intoComplex (cosySeq [cosyString "a", cosyNumber 0])) = false :=
  ⟨rfl, rfl, rfl⟩

/-- Claim C4, amended: `into_complex` succeeds exactly on the receivers
`coercible` describes — numbers and complexes always, strings never, and a
sequence exactly when it has at least two elements and its first two
elements both recursively coerce; equivalently, it raises a
ConversionError iff the receiver is a string, a sequence with fewer than
two elements, or a sequence whose first or second element recursively
fails to coerce. -/
theorem coerce_ok_iff_coercible (c : Cosy) :
    exceptOk (intoComplex c) = coercible c :=
  intoComplex_ok_eq_coercible c

/-- Claim C5: on a sequence with at least two elements whose first two
elements coerce to `r0` and `r1`, `into_complex` succeeds with a complex
whose real part is the real component of `r0` and whose imaginary part is
the real component of `r1` (any imaginary part of the recursive results is
discarded), for every tail `rest` — the elements beyond index 1 do not
influence the complex components. -/
theorem coerce_seq_takes_real_components (v : CosyValue) (s : String)
    (e0 e1 r0 r1 : Cosy) (h0 : intoComplex e0 = .ok r0)
    (h1 : intoComplex e1 = .ok r1) (rest : List Cosy) :
    intoComplex (.mk v s (e0 :: e1 :: rest) .VECTOR) =
      .ok (.mk (.complexValue r0.value.readRe r1.value.readRe) s
        (r0 :: r1 :: rest) .COMPLEX) := by
  simp [intoComplex, h0, h1, writeRe_writeIm]

theorem coerce_seq_takes_real_components_witness :
    intoComplex (cosySeq [cosyNumber 1, cosyNumber 2]) =
      .ok (.mk (.complexValue 1 2) ""
        [.mk (.complexValue 1 0) "" [] .COMPLEX,
         .mk (.complexValue 2 0) "" [] .COMPLEX] .COMPLEX) :=
  coerce_seq_takes_real_components .indeterminate "" (cosyNumber 1) (cosyNumber 2)
    (.mk (.complexValue 1 0) "" [] .COMPLEX)
    (.mk (.complexValue 2 0) "" [] .COMPLEX) rfl rfl []

/-- Claim C7: on a sequence with fewer than two elements the length check
comes first: `into_complex` throws the ConversionError and the receiver is
exactly the value it started as — tag and every payload field unchanged. -/
theorem coerce_short_seq_error_unmodified (v : CosyValue) (s : String)
    (vec : List Cosy) (h : vec.length < 2) :
    intoComplex (.mk v s vec .VECTOR) =
      .error ("Cannot convert vector to complex, must have at least two elements!",
        .mk v s vec .VECTOR) := by
  match vec with
  | [] => rfl
  | [e0] => rfl
  | e0 :: e1 :: rest => simp at h; omega

theorem coerce_short_seq_error_unmodified_witness :
    intoComplex (.mk .indeterminate "" [] .VECTOR) =
      .error ("Cannot convert vector to complex, must have at least two elements!",
        .mk .indeterminate "" [] .VECTOR) :=
  coerce_short_seq_error_unmodified .indeterminate "" [] (by decide)

/-- Claim C6: two strings concatenate; a string and a number on either side
concatenate with the number in decimal text, preserving operand order; a
string with a complex or a sequence on either side throws the TypeError. -/
theorem combine_string_cases (f : Nat) (s t : String) (n : Int)
    (re im : ℚ) (xs : List Cosy) :
    addFuel (f + 1) (cosyString s) (cosyString t) =
      some (.ok (.mk (.intValue 0) (s ++ t) [] .STRING)) ∧
    addFuel (f + 1) (cosyString s) (cosyNumber n) =
      some (.ok (.mk (.intValue 0) (s ++ toString n) [] .STRING)) ∧
    addFuel (f + 1) (cosyNumber n) (cosyString s) =
      some (.ok (.mk (.intValue 0) (toString n ++ s) [] .STRING)) ∧
    addFuel (f + 1) (cosyString s) (cosyComplex re im) =
      some (.error "Cannot convert complex/vector to string for concatenation!") ∧
    addFuel (f + 1) (cosyComplex re im) (cosyString s) =
      some (.error "Cannot convert complex/vector to string for concatenation!") ∧
    addFuel (f + 1) (cosyString s) (cosySeq xs) =
      some (.error "Cannot convert complex/vector to string for concatenation!") ∧
    addFuel (f + 1) (cosySeq xs) (cosyString s) =
      some (.error "Cannot convert complex/vector to string for concatenation!") := by
  refine ⟨?_, ?_, ?_, ?_, ?_, ?_, ?_⟩ <;>
    simp [addFuel, toStrOperand, cosyString, cosyNumber, cosyComplex, cosySeq,
      Cosy.type, Cosy.stringValue, Cosy.value, CosyValue.readInt]

theorem renderElems_eq_sepBy : ∀ xs : List Cosy,
    renderElems xs = sepBy ", " (xs.map render)
  | [] => rfl
  | [_] => rfl
  | x :: y :: rest => by
    simp [renderElems, sepBy, renderElems_eq_sepBy (y :: rest)]

/-- Claim C8: a sequence renders as the brace-and-space literals around its
elements' renderings separated by a comma and space with no trailing
separator; the empty sequence renders with exactly two spaces between the
braces, and nesting recurses, as on the concrete nested example. -/
theorem render_sequence (v : CosyValue) (s : String) (xs : List Cosy) :
    render (.mk v s xs .VECTOR) =
      "\x7b " ++ sepBy ", " (xs.map render) ++ " \x7d" ∧
    render (cosySeq []) = "\x7b  \x7d" ∧
    render (cosySeq [cosyNumber 1, cosyString "x", cosySeq [cosyNumber 2]]) =
      "\x7b 1, x, \x7b 2 \x7d \x7d" := by
  refine ⟨?_, rfl, rfl⟩
  simp [render, renderElems_eq_sepBy xs]

theorem addFuel_ok_type : ∀ (f : Nat) (a b r : Cosy),
    addFuel f a b = some (.ok r) → r.type ≠ .VECTOR := by
  intro f
  induction f with
  | zero => intro a b r h; exact absurd h (by simp [addFuel])
  | succ n ih =>
    intro a b r h
    simp only [addFuel] at h
    repeat' split at h
    all_goals try simp only [Option.some.injEq, Except.ok.injEq, reduceCtorEq] at h
    all_goals first
      | exact ih _ _ _ h
      | (subst h; simp [cosyDefault, Cosy.type])

/-- Claim C9: whatever `operator+` returns normally is a number, a string
or a complex — no branch ever constructs a vector result. -/
theorem combine_never_yields_vector (f : Nat) (a b r : Cosy)
    (h : addFuel f a b = some (.ok r)) :
    r.type = .NUMBER ∨ r.type = .STRING ∨ r.type = .COMPLEX := by
  have hv := addFuel_ok_type f a b r h
  cases hr : r.type <;> simp_all

theorem combine_never_yields_vector_witness :
    (Cosy.mk (.intValue 3) "" [] .NUMBER).type = .NUMBER ∨
    (Cosy.mk (.intValue 3) "" [] .NUMBER).type = .STRING ∨
    (Cosy.mk (.intValue 3) "" [] .NUMBER).type = .COMPLEX :=
  combine_never_yields_vector 1 (cosyNumber 1) (cosyNumber 2)
    (.mk (.intValue 3) "" [] .NUMBER) rfl

theorem intoComplex_ok_type : ∀ (c r : Cosy), intoComplex c = .ok r → r.type = .COMPLEX := by
  intro c r h
  match c with
  | .mk v s vec t =>
    cases t with
    | NUMBER => simp only [intoComplex, Except.ok.injEq] at h; subst h; rfl
    | STRING => exact absurd h (by simp [intoComplex])
    | COMPLEX => simp only [intoComplex, Except.ok.injEq] at h; subst h; rfl
    | VECTOR =>
      match vec with
      | [] => exact absurd h (by simp [intoComplex])
      | [e0] => exact absurd h (by simp [intoComplex])
      | e0 :: e1 :: rest =>
        simp only [intoComplex] at h
        split at h
        · exact absurd h (by simp)
        · split at h
          · exact absurd h (by simp)
          · simp only [Except.ok.injEq] at h; subst h; rfl

/-- Claim C10: when `into_complex` succeeds on a sequence of at least two
elements, the stored first and second elements have been coerced in place —
in the receiver's final state the list holds two Complex-tagged values in
positions 0 and 1 — and every element from index 2 on is exactly the
original tail. -/
theorem coerce_seq_mutates_first_two (v : CosyValue) (s : String)
    (e0 e1 : Cosy) (rest : List Cosy) (r : Cosy)
    (h : intoComplex (.mk v s (e0 :: e1 :: rest) .VECTOR) = .ok r) :
    ∃ r0 r1, r.vectorValue = r0 :: r1 :: rest ∧
      r0.type = .COMPLEX ∧ r1.type = .COMPLEX := by
  simp only [intoComplex] at h
  split at h
  · exact absurd h (by simp)
  case h_2 r0 he0 =>
    split at h
    · exact absurd h (by simp)
    case h_2 r1 he1 =>
      simp only [Except.ok.injEq] at h
      subst h
      exact ⟨r0, r1, rfl, intoComplex_ok_type e0 r0 he0, intoComplex_ok_type e1 r1 he1⟩

theorem coerce_seq_mutates_first_two_witness :
    ∃ r0 r1,
      (Cosy.mk (.complexValue 1 2) ""
        [.mk (.complexValue 1 0) "" [] .COMPLEX,
         .mk (.complexValue 2 0) "" [] .COMPLEX] .COMPLEX).vectorValue =
        r0 :: r1 :: ([] : List Cosy) ∧
      r0.type = .COMPLEX ∧ r1.type = .COMPLEX :=
  coerce_seq_mutates_first_two .indeterminate "" (cosyNumber 1) (cosyNumber 2) []
    (.mk (.complexValue 1 2) ""
      [.mk (.complexValue 1 0) "" [] .COMPLEX,
       .mk (.complexValue 2 0) "" [] .COMPLEX] .COMPLEX) rfl
